import Mathlib

/-!
Shallow embedding of the `thinkback` repository for specification checking.

Sources embedded:
* `src/src/server/api/routers/debate.ts` — backend turn procedure (`sendTurn`),
  the Groq chat-completion helper (`getGroqResponse`), the Fal TTS helper
  (`getFalTtsAudioUrl`), the markdown-stripping pipeline, and the startup
  environment checks.
* `src/unnamed/part_000` — the frontend page component: its state variables,
  `handleMicClick`, `handleUserTurnEnd`, the recognition `onresult` handler and
  the tRPC `onSuccess` callback.

External providers (the Groq HTTP endpoint and the Fal subscription) are
modelled as oracles: an inductive outcome describes every behaviour the source
distinguishes (success payload, non-2xx status, missing field, thrown error),
and the embedded helpers map outcomes through exactly the branches of the
source.  JavaScript string semantics that matter (truthiness of `""`,
`String.prototype.trim`, `String.prototype.startsWith`) are embedded
explicitly.
-/

namespace ThinkBack

/-! ## JavaScript string primitives -/

/-- JS whitespace as relevant to `trim` on the strings in scope. -/
def jsWhitespaceChar (c : Char) : Bool :=
  c = ' ' || c = '\t' || c = '\n' || c = '\r'

/-- `String.prototype.trim`: drop leading and trailing whitespace. -/
def jsTrim (s : String) : String :=
  String.mk (((s.data.dropWhile jsWhitespaceChar).reverse.dropWhile jsWhitespaceChar).reverse)

/-- `s.startsWith(p)` in JS: `p` is a prefix of `s`. -/
def strStartsWith (s p : String) : Bool :=
  List.isPrefixOf p.data s.data

/-! ## Markdown stripping (debate.ts lines 112–121)

Each `.replace(regex, …)` of the source is embedded as a left-to-right scan on
the character list: at each position the engine tries the pattern; on a match
it emits the replacement and resumes after the match, otherwise it emits one
character and advances.  Because every character class in the source patterns
excludes its closing delimiter, the regex match at a position is deterministic
(no backtracking can extend or shrink it), so the scan below is exactly the
JS `replace` semantics.  Each scanner carries fuel; every step consumes at
least one list element, so fuel `= length` never runs out before the list is
exhausted and the fueled function agrees with the unfueled recursion. -/

/-- One pass of `.replace(/dd([^d]+)dd/g, '$1')` for a delimiter `d`
(the `**bold**` and `__bold__` rules). -/
def replaceDoubleAux (d : Char) : Nat → List Char → List Char
  | 0, l => l
  | _ + 1, [] => []
  | fuel + 1, c :: cs =>
    if c = d then
      match cs with
      | c2 :: rest =>
        if c2 = d then
          let run := rest.takeWhile (fun x => x ≠ d)
          match rest.dropWhile (fun x => x ≠ d) with
          | a1 :: a2 :: tail =>
            if run ≠ [] ∧ a1 = d ∧ a2 = d then run ++ replaceDoubleAux d fuel tail
            else c :: replaceDoubleAux d fuel cs
          | _ => c :: replaceDoubleAux d fuel cs
        else c :: replaceDoubleAux d fuel cs
      | [] => [c]
    else c :: replaceDoubleAux d fuel cs

/-- One pass of `.replace(/d([^d]+)d/g, '$1')` for a delimiter `d`
(the `*italic*`, `_italic_` and inline-code rules). -/
def replaceSingleAux (d : Char) : Nat → List Char → List Char
  | 0, l => l
  | _ + 1, [] => []
  | fuel + 1, c :: cs =>
    if c = d then
      let run := cs.takeWhile (fun x => x ≠ d)
      match cs.dropWhile (fun x => x ≠ d) with
      | a :: tail =>
        if run ≠ [] ∧ a = d then run ++ replaceSingleAux d fuel tail
        else c :: replaceSingleAux d fuel cs
      | [] => c :: replaceSingleAux d fuel cs
    else c :: replaceSingleAux d fuel cs

/-- One pass of `.replace(/ddd[^d]*ddd/gs, '')` for a delimiter `d`
(the fenced code-block rule). -/
def stripBlocksAux (d : Char) : Nat → List Char → List Char
  | 0, l => l
  | _ + 1, [] => []
  | fuel + 1, c :: cs =>
    if c = d then
      match cs with
      | c2 :: c3 :: rest =>
        if c2 = d ∧ c3 = d then
          match rest.dropWhile (fun x => x ≠ d) with
          | a1 :: a2 :: a3 :: tail =>
            if a1 = d ∧ a2 = d ∧ a3 = d then stripBlocksAux d fuel tail
            else c :: stripBlocksAux d fuel cs
          | _ => c :: stripBlocksAux d fuel cs
        else c :: stripBlocksAux d fuel cs
      | _ => c :: stripBlocksAux d fuel cs
    else c :: stripBlocksAux d fuel cs

/-- One pass of `.replace(/^[#]+[ \t]/gm, '')`: at every line start, a run of
hash marks followed by one space or tab is removed.  The boolean tracks
whether the current position is a line start (start of string or just after a
newline). -/
def stripHeadersAux : Nat → Bool → List Char → List Char
  | 0, _, l => l
  | _ + 1, _, [] => []
  | fuel + 1, atStart, c :: cs =>
    if atStart ∧ c = '#' then
      match (c :: cs).dropWhile (fun x => x = '#') with
      | r :: tail =>
        if r = ' ' ∨ r = '\t' then stripHeadersAux fuel false tail
        else c :: stripHeadersAux fuel false cs
      | [] => c :: stripHeadersAux fuel false cs
    else c :: stripHeadersAux fuel (c = '\n') cs

/-- One pass of the link rule: `[text](url)` collapses to `text`. -/
def stripLinksAux : Nat → List Char → List Char
  | 0, l => l
  | _ + 1, [] => []
  | fuel + 1, c :: cs =>
    if c = '[' then
      let txt := cs.takeWhile (fun x => x ≠ ']')
      match cs.dropWhile (fun x => x ≠ ']') with
      | _rb :: '(' :: rest2 =>
        let url := rest2.takeWhile (fun x => x ≠ ')')
        match rest2.dropWhile (fun x => x ≠ ')') with
        | _rp :: tail =>
          if txt ≠ [] ∧ url ≠ [] then txt ++ stripLinksAux fuel tail
          else c :: stripLinksAux fuel cs
        | [] => c :: stripLinksAux fuel cs
      | _ => c :: stripLinksAux fuel cs
    else c :: stripLinksAux fuel cs

/-- The backtick character (code 96). -/
def btick : Char := Char.ofNat 96

/-- Characters removed by the final stray-symbol rule of the source. -/
def mdSymbol (c : Char) : Bool :=
  c = '[' || c = ']' || c = '(' || c = ')' || c = '*' || c = '_' || c = '#' || c = btick

/-- The full markdown-stripping chain of `sendTurn` (debate.ts 112–121), in
source order: bold (double star), italic (single star), bold (double
underscore), italic (single underscore), inline code; fenced code blocks;
heading markers; links; remaining individual symbols. -/
def sanitizeMarkdownList (l : List Char) : List Char :=
  let l1 := replaceDoubleAux '*' l.length l
  let l2 := replaceSingleAux '*' l1.length l1
  let l3 := replaceDoubleAux '_' l2.length l2
  let l4 := replaceSingleAux '_' l3.length l3
  let l5 := replaceSingleAux btick l4.length l4
  let l6 := stripBlocksAux btick l5.length l5
  let l7 := stripHeadersAux l6.length true l6
  let l8 := stripLinksAux l7.length l7
  l8.filter (fun c => !(mdSymbol c))

/-- Markdown stripping on strings. -/
def sanitizeMarkdown (s : String) : String :=
  String.mk (sanitizeMarkdownList s.data)

/-! ## Backend: provider oracles and helpers (debate.ts) -/

/-- Behaviour of one Groq chat-completion HTTP call, as the source
distinguishes it: a 2xx response carrying `choices[0].message.content`
(`ok`), a 2xx response without that field (`noContent`), a non-2xx response
with its status text (`httpError`), or a thrown `fetch` error
(`fetchThrow`). -/
inductive GroqOutcome where
  | ok (content : String)
  | noContent
  | httpError (statusText : String)
  | fetchThrow
deriving DecidableEq

/-- Behaviour of one Fal TTS subscription: a response whose `audio.url` is a
string (`ok`), a response without a valid url (`badResponse`), or a thrown
error (`throws`). -/
inductive TtsOutcome where
  | ok (url : String)
  | badResponse
  | throws
deriving DecidableEq

/-- The raw `fetch` to the Groq endpoint, before the helper's `try`/`catch`:
`Except.error` is the thrown case, `Except.ok` carries `(response.ok,
statusText, content field)`. -/
def groqFetch : GroqOutcome → Except String (Bool × String × Option String)
  | .ok c => .ok (true, "", some c)
  | .noContent => .ok (true, "", none)
  | .httpError st => .ok (false, st, none)
  | .fetchThrow => .error "fetch failed"

/-- `getGroqResponse` (debate.ts 46–96).  `keyOk` is the truthiness of
`env.GROQ_API_KEY` at call time.  The `match` on `groqFetch` is the source's
`try`/`catch`; the content branch mirrors the JS truthiness test on the
`content` field followed by `.trim()`. -/
def getGroqResponse (keyOk : Bool) (o : GroqOutcome) : Option String :=
  if !keyOk then some "Error: Groq API key not configured."
  else
    match groqFetch o with
    | .error _ => some "Error sending request to Groq API."
    | .ok (respOk, statusText, content) =>
      if !respOk then some ("Error communicating with Groq API: " ++ statusText)
      else
        match content with
        | some c => if c ≠ "" then some (jsTrim c) else some "No response text found from Groq API."
        | none => some "No response text found from Groq API."

/-- The raw `fal.subscribe` call, before the helper's `try`/`catch`:
`Except.error` is the thrown case, `Except.ok` carries the `audio.url` field
when it is a string. -/
def falSubscribe : TtsOutcome → Except String (Option String)
  | .ok url => .ok (some url)
  | .badResponse => .ok none
  | .throws => .error "TTS error"

/-- `getFalTtsAudioUrl` (debate.ts 17–43): returns the audio url on success
and `none` both when the response lacks a valid url and when the call threw
(the `catch` branch). -/
def getFalTtsAudioUrl (o : TtsOutcome) : Option String :=
  match falSubscribe o with
  | .ok (some url) => some url
  | .ok none => none
  | .error _ => none

/-- `plainTextForTts` (debate.ts 109–122): defaults to the reply text or the
fallback string when the reply is null/empty, and is replaced by the
markdown-stripped reply when the reply is non-empty and does not start with
`"Error:"`. -/
def plainTextForTts (aiTextResponse : Option String) : String :=
  let dflt :=
    match aiTextResponse with
    | some t => if t = "" then "Sorry, I encountered an error." else t
    | none => "Sorry, I encountered an error."
  match aiTextResponse with
  | some t => if t ≠ "" ∧ strStartsWith t "Error:" = false then sanitizeMarkdown t else dflt
  | none => dflt

/-- The response shape of the turn procedure. -/
structure TurnResponse where
  aiText : String
  audioUrl : Option String
deriving DecidableEq

/-- `sendTurn` (debate.ts 100–142), over a Groq oracle and a TTS oracle.  The
TTS oracle is a function of the text submitted to synthesis, so the theorems
can observe which text the procedure passes to the TTS helper.  The result
type is `Except String TurnResponse`: an `Except.error` would model an
exception escaping to the tRPC caller; the body itself contains no `throw`,
and the helpers it awaits catch their providers' errors internally. -/
def sendTurn (keyOk : Bool) (g : GroqOutcome) (tts : String → TtsOutcome) :
    Except String TurnResponse :=
  let aiTextResponse := getGroqResponse keyOk g
  let p := plainTextForTts aiTextResponse
  match aiTextResponse with
  | none =>
    Except.ok { aiText := p, audioUrl := getFalTtsAudioUrl (tts p) }
  | some t =>
    if t = "" ∨ strStartsWith t "Error:" = true then
      Except.ok { aiText := p, audioUrl := getFalTtsAudioUrl (tts p) }
    else
      Except.ok { aiText := t, audioUrl := getFalTtsAudioUrl (tts p) }

/-! ## Backend: startup environment checks (debate.ts 6–14) -/

/-- The environment slice the module reads: the two provider keys, each
possibly absent. -/
structure Env where
  FAL_API_KEY : Option String
  GROQ_API_KEY : Option String

/-- JS truthiness of an optional environment string. -/
def keyPresent : Option String → Bool
  | none => false
  | some s => s ≠ ""

/-- The module-level key checks: evaluating the module throws on a missing
Fal key, then on a missing Groq key; otherwise the module loads. -/
def moduleInit (e : Env) : Except String Unit :=
  if !keyPresent e.FAL_API_KEY then .error "FAL_API_KEY environment variable is not set."
  else if !keyPresent e.GROQ_API_KEY then .error "GROQ_API_KEY environment variable is not set."
  else .ok ()

/-! ## Frontend: page component state (part_000)

The component's `useState` variables, together with the bits of the audio
element and recognition instance the handlers touch, form the state record.
React batches the `set*` calls made inside one event handler, so each source
handler is embedded as one atomic transition on this record. -/

inductive Speaker where
  | user
  | ai
deriving DecidableEq

/-- The `Message` type of the page: one conversation entry. -/
structure Message where
  speaker : Speaker
  text : String
deriving DecidableEq

structure AppState where
  isRecording : Bool
  isAiSpeaking : Bool
  userTranscript : String
  aiResponse : String
  conversation : List Message
  audioUrl : Option String
  /-- whether the `<audio>` element is currently playing -/
  playerPlaying : Bool
  /-- the `<audio>` element's `currentTime` -/
  playerTime : Nat
  /-- whether the recognition instance is started -/
  recognitionActive : Bool
  /-- whether a `sendTurn` mutation is awaiting its response
  (`sendTurnMutation.isLoading`) -/
  requestInFlight : Bool
deriving DecidableEq

/-- The four turn phases of the specification, read off the component state:
`listening` while recording; otherwise `awaitingReply` while the mutation is
loading with the AI marked speaking, `speaking` while the AI is marked
speaking with no request in flight, and `idle` otherwise. -/
inductive TurnPhase where
  | idle
  | listening
  | awaitingReply
  | speaking
deriving DecidableEq

def phase (s : AppState) : TurnPhase :=
  if s.isRecording then .listening
  else if s.isAiSpeaking then
    if s.requestInFlight then .awaitingReply else .speaking
  else .idle

/-- `handleMicClick` (part_000 104–124).  While recording, stop capture.
Otherwise, when the AI is speaking first pause the player, reset its time,
clear the audio url and the speaking flag; then clear the transcript, start
recognition and mark recording. -/
def handleMicClick (s : AppState) : AppState :=
  if s.isRecording then
    { s with recognitionActive := false, isRecording := false }
  else
    let s1 :=
      if s.isAiSpeaking then
        { s with playerPlaying := false, playerTime := 0,
                 audioUrl := none, isAiSpeaking := false }
      else s
    { s1 with userTranscript := "", recognitionActive := true, isRecording := true }

/-- `handleUserTurnEnd` (part_000 126–133): an empty text is a no-op;
otherwise append the `user` entry, clear the transcript, mark the AI as
thinking and issue the mutation. -/
def handleUserTurnEnd (text : String) (s : AppState) : AppState :=
  if text = "" then s
  else
    { s with conversation := s.conversation ++ [⟨Speaker.user, text⟩],
             userTranscript := "",
             isAiSpeaking := true,
             aiResponse := "...",
             requestInFlight := true }

/-- One entry of a `SpeechRecognitionEvent` result list (from
`event.resultIndex` on): its `isFinal` flag and best-alternative
transcript. -/
structure RecResult where
  isFinal : Bool
  transcript : String

/-- The concatenation of the final transcripts of one result event. -/
def finalTranscript (ev : List RecResult) : String :=
  String.join ((ev.filter (fun r => r.isFinal)).map (fun r => r.transcript))

/-- The concatenation of the interim transcripts of one result event. -/
def interimTranscript (ev : List RecResult) : String :=
  String.join ((ev.filter (fun r => !r.isFinal)).map (fun r => r.transcript))

/-- `recognitionInstance.onresult` (part_000 62–76): show the final
transcript when non-empty, else the interim one; when the final transcript is
non-empty, end the user turn with its trimmed text. -/
def onresult (ev : List RecResult) (s : AppState) : AppState :=
  let f := finalTranscript ev
  let s1 := { s with userTranscript := if f ≠ "" then f else interimTranscript ev }
  if f ≠ "" then handleUserTurnEnd (jsTrim f) s1 else s1

/-- The `sendTurnMutation.onSuccess` callback (part_000 28–34): store the
reply, append the `ai` entry, set the audio url and clear the speaking flag;
the mutation is no longer loading. -/
def onSuccess (aiText : String) (audioUrl : Option String) (s : AppState) : AppState :=
  { s with aiResponse := aiText,
           conversation := s.conversation ++ [⟨Speaker.ai, aiText⟩],
           audioUrl := audioUrl,
           isAiSpeaking := false,
           requestInFlight := false }

/-- Fold a sequence of recognition result events through `onresult`. -/
def runResults (evs : List (List RecResult)) (s : AppState) : AppState :=
  evs.foldl (fun st ev => onresult ev st) s

/-! ## Derived predicates used by the theorems -/

/-- The Groq chat call failed: network error, non-2xx status, or missing
content field. -/
def groqCallFails : GroqOutcome → Bool
  | .ok _ => false
  | .noContent => true
  | .httpError _ => true
  | .fetchThrow => true

/-- The error text `getGroqResponse` produces for each failing call. -/
def groqFailureText : GroqOutcome → String
  | .httpError st => "Error communicating with Groq API: " ++ st
  | .fetchThrow => "Error sending request to Groq API."
  | _ => "No response text found from Groq API."

/-- The Fal TTS call failed: invalid response or thrown error. -/
def ttsFails : TtsOutcome → Bool
  | .ok _ => false
  | .badResponse => true
  | .throws => true

/-! ## Concrete states used by witnesses -/

/-- A state in phase `speaking`: AI audio playing, not recording, no request
in flight. -/
def wSpeaking : AppState :=
  { isRecording := false, isAiSpeaking := true, userTranscript := "",
    aiResponse := "ai reply", conversation := [⟨Speaker.user, "hi"⟩, ⟨Speaker.ai, "ai reply"⟩],
    audioUrl := some "https://audio/x", playerPlaying := true, playerTime := 3,
    recognitionActive := false, requestInFlight := false }

/-- A state in phase `awaitingReply`: mutation in flight, AI thinking. -/
def wAwaiting : AppState :=
  { isRecording := false, isAiSpeaking := true, userTranscript := "",
    aiResponse := "...", conversation := [⟨Speaker.user, "hi"⟩],
    audioUrl := none, playerPlaying := false, playerTime := 0,
    recognitionActive := false, requestInFlight := true }

/-- A state in phase `listening`: capture running. -/
def wListening : AppState :=
  { isRecording := true, isAiSpeaking := false, userTranscript := "",
    aiResponse := "", conversation := [⟨Speaker.user, "a"⟩],
    audioUrl := none, playerPlaying := false, playerTime := 0,
    recognitionActive := true, requestInFlight := false }

/-- A sample sequence of recognition events: a non-empty final transcript, a
whitespace-only final transcript, an interim-only event, and another
non-empty final transcript. -/
def wEvents : List (List RecResult) :=
  [[⟨true, " hi "⟩], [⟨true, " "⟩], [⟨false, "int"⟩], [⟨true, "yo"⟩]]

/-! ## Helper lemmas -/

theorem jsTrim_empty : jsTrim "" = "" := rfl

theorem bool_eq_false {b : Bool} (h : ¬b = true) : b = false := by
  cases b
  · rfl
  · exact absurd rfl h

/-- The non-2xx error text never carries the `"Error:"` prefix: its sixth
character is a space, not a colon. -/
theorem strStartsWith_errComm (st : String) :
    strStartsWith ("Error communicating with Groq API: " ++ st) "Error:" = false := by
  cases st with
  | mk l => rfl

/-- The non-2xx error text is never empty. -/
theorem errComm_ne_empty (st : String) :
    ("Error communicating with Groq API: " ++ st) ≠ "" := by
  cases st with
  | mk l =>
    intro h
    exact List.noConfusion (congrArg String.data h)

/-- The conversation effect of one `onresult` event: appends one `user` entry
holding the trimmed final transcript when that trim is non-empty, nothing
otherwise. -/
theorem onresult_conversation (ev : List RecResult) (s : AppState) :
    (onresult ev s).conversation =
      s.conversation ++
        (if jsTrim (finalTranscript ev) = "" then ([] : List Message)
         else [⟨Speaker.user, jsTrim (finalTranscript ev)⟩]) := by
  by_cases hf : finalTranscript ev = ""
  · simp [onresult, hf, jsTrim_empty]
  · by_cases ht : jsTrim (finalTranscript ev) = ""
    · simp [onresult, handleUserTurnEnd, hf, ht]
    · simp [onresult, handleUserTurnEnd, hf, ht]

/-- The conversation effect of a sequence of `onresult` events. -/
theorem runResults_conversation (evs : List (List RecResult)) (s : AppState) :
    (runResults evs s).conversation =
      s.conversation ++ evs.filterMap (fun ev =>
        if jsTrim (finalTranscript ev) = "" then none
        else some ⟨Speaker.user, jsTrim (finalTranscript ev)⟩) := by
  induction evs generalizing s with
  | nil => simp [runResults]
  | cons ev rest ih =>
    have h1 : runResults (ev :: rest) s = runResults rest (onresult ev s) := rfl
    rw [h1, ih, onresult_conversation]
    by_cases ht : jsTrim (finalTranscript ev) = "" <;>
      simp [ht, List.filterMap_cons, List.append_assoc]

/-- The success path of `sendTurn`: a non-empty reply without the `"Error:"`
prefix is sanitized for synthesis and returned verbatim as `aiText`. -/
theorem sendTurn_success_branch (keyOk : Bool) (g : GroqOutcome)
    (tts : String → TtsOutcome) (t : String)
    (hg : getGroqResponse keyOk g = some t) (h0 : t ≠ "")
    (h1 : strStartsWith t "Error:" = false) :
    sendTurn keyOk g tts = Except.ok ⟨t, getFalTtsAudioUrl (tts (sanitizeMarkdown t))⟩ := by
  have hp : plainTextForTts (some t) = sanitizeMarkdown t := by
    simp only [plainTextForTts]
    rw [if_pos ⟨h0, h1⟩]
  have hb : ¬(t = "" ∨ strStartsWith t "Error:" = true) := by
    rintro (h | h)
    · exact h0 h
    · rw [h1] at h
      cases h
  simp only [sendTurn, hg, hp]
  rw [if_neg hb]

/-- The failure path of `sendTurn`: an empty or `"Error:"`-prefixed reply is
used, unsanitized (or replaced by the fallback when empty), as both the
display text and the synthesis input. -/
theorem sendTurn_failure_branch (keyOk : Bool) (g : GroqOutcome)
    (tts : String → TtsOutcome) (t : String)
    (hg : getGroqResponse keyOk g = some t)
    (h : t = "" ∨ strStartsWith t "Error:" = true) :
    sendTurn keyOk g tts
      = Except.ok ⟨plainTextForTts (some t),
          getFalTtsAudioUrl (tts (plainTextForTts (some t)))⟩ := by
  simp only [sendTurn, hg]
  rw [if_pos h]

/-- `getGroqResponse` always returns a string (never `null`). -/
theorem getGroqResponse_isSome (keyOk : Bool) (g : GroqOutcome) :
    ∃ s, getGroqResponse keyOk g = some s := by
  cases keyOk
  · exact ⟨_, rfl⟩
  · cases g with
    | ok c =>
      by_cases hc : c = ""
      · refine ⟨"No response text found from Groq API.", ?_⟩
        simp [getGroqResponse, groqFetch, hc]
      · refine ⟨jsTrim c, ?_⟩
        simp [getGroqResponse, groqFetch, hc]
    | noContent => exact ⟨_, rfl⟩
    | httpError st => exact ⟨_, rfl⟩
    | fetchThrow => exact ⟨_, rfl⟩

/-! ## Claim theorems -/

/-- C5: the markdown sanitization maps `"**bold** and _italic_ and
`` `code` ``"` to `"bold and italic and code"`, and `"# Heading\n[link](http://x)"`
to `"Heading\nlink"`. -/
theorem sanitize_markdown_examples :
    sanitizeMarkdown "**bold** and _italic_ and `code`" = "bold and italic and code" ∧
    sanitizeMarkdown "# Heading\n[link](http://x)" = "Heading\nlink" :=
  ⟨rfl, rfl⟩

/-- C1: from any state in phase `speaking`, the start-capture action
(`handleMicClick`) is one atomic transition that stops playback, resets the
player, clears the pending audio locator and lands in phase `listening` —
in particular not `idle`; React batches the handler's updates, so no
intermediate state is observable. -/
theorem interruption_from_speaking (s : AppState) (h : phase s = TurnPhase.speaking) :
    phase (handleMicClick s) = TurnPhase.listening ∧
    (handleMicClick s).audioUrl = none ∧
    (handleMicClick s).playerPlaying = false ∧
    (handleMicClick s).playerTime = 0 ∧
    phase (handleMicClick s) ≠ TurnPhase.idle := by
  by_cases hr : s.isRecording
  · simp [phase, hr] at h
  · by_cases ha : s.isAiSpeaking
    · simp [phase, handleMicClick, hr, ha]
    · simp [phase, hr, ha] at h

/-- Witness for C1 at a concrete speaking state. -/
theorem interruption_from_speaking_witness :
    phase wSpeaking = TurnPhase.speaking ∧
    (phase (handleMicClick wSpeaking) = TurnPhase.listening ∧
     (handleMicClick wSpeaking).audioUrl = none ∧
     (handleMicClick wSpeaking).playerPlaying = false ∧
     (handleMicClick wSpeaking).playerTime = 0 ∧
     phase (handleMicClick wSpeaking) ≠ TurnPhase.idle) :=
  ⟨rfl, interruption_from_speaking wSpeaking rfl⟩

/-- C2 (code behaviour at the claim's scenario): a turn is in
`awaitingReply`, the user interrupts via `handleMicClick` (moving to
`listening`), and the superseded Turn Service response then arrives; the
`onSuccess` callback has no staleness guard, so it still appends an
`assistant` entry and installs the stale audio locator. -/
theorem stale_response_still_appends :
    phase wAwaiting = TurnPhase.awaitingReply ∧
    phase (handleMicClick wAwaiting) = TurnPhase.listening ∧
    (onSuccess "stale reply" (some "https://audio/stale") (handleMicClick wAwaiting)).conversation
      = [⟨Speaker.user, "hi"⟩, ⟨Speaker.ai, "stale reply"⟩] ∧
    (onSuccess "stale reply" (some "https://audio/stale") (handleMicClick wAwaiting)).audioUrl
      = some "https://audio/stale" :=
  ⟨rfl, rfl, rfl, rfl⟩

/-- C7: over any sequence of capture-final events arriving in phase `idle` or
`listening`, exactly one `user` entry is appended per event whose trimmed
final transcript is non-empty, and none for empty or whitespace-only final
transcripts. -/
theorem capture_final_user_entries (s : AppState) (evs : List (List RecResult))
    (h : phase s = TurnPhase.idle ∨ phase s = TurnPhase.listening) :
    (runResults evs s).conversation =
      s.conversation ++ evs.filterMap (fun ev =>
        if jsTrim (finalTranscript ev) = "" then none
        else some ⟨Speaker.user, jsTrim (finalTranscript ev)⟩) :=
  runResults_conversation evs s

/-- Witness for C7 at a concrete listening state and event sequence. -/
theorem capture_final_user_entries_witness :
    (phase wListening = TurnPhase.idle ∨ phase wListening = TurnPhase.listening) ∧
    (runResults wEvents wListening).conversation =
      wListening.conversation ++ wEvents.filterMap (fun ev =>
        if jsTrim (finalTranscript ev) = "" then none
        else some ⟨Speaker.user, jsTrim (finalTranscript ev)⟩) ∧
    (runResults wEvents wListening).conversation =
      [⟨Speaker.user, "a"⟩, ⟨Speaker.user, "hi"⟩, ⟨Speaker.user, "yo"⟩] :=
  ⟨Or.inr rfl, capture_final_user_entries wListening wEvents (Or.inr rfl), rfl⟩

/-- C3: whenever the chat call fails entirely (network error, non-2xx
status, or missing content field), `sendTurn` returns as `aiText` either the
fixed fallback string or the error text produced for that provider
failure. -/
theorem sendTurn_chat_failure_aiText (g : GroqOutcome) (tts : String → TtsOutcome)
    (r : TurnResponse) (hg : groqCallFails g = true)
    (hr : sendTurn true g tts = Except.ok r) :
    r.aiText = "Sorry, I encountered an error." ∨ r.aiText = groqFailureText g := by
  cases g with
  | ok c => simp [groqCallFails] at hg
  | noContent =>
    rw [sendTurn_success_branch true GroqOutcome.noContent tts
      "No response text found from Groq API." rfl (by decide) rfl] at hr
    injection hr with h2
    subst h2
    right
    rfl
  | httpError st =>
    rw [sendTurn_success_branch true (GroqOutcome.httpError st) tts
      ("Error communicating with Groq API: " ++ st) rfl (errComm_ne_empty st)
      (strStartsWith_errComm st)] at hr
    injection hr with h2
    subst h2
    right
    rfl
  | fetchThrow =>
    rw [sendTurn_success_branch true GroqOutcome.fetchThrow tts
      "Error sending request to Groq API." rfl (by decide) rfl] at hr
    injection hr with h2
    subst h2
    right
    rfl

/-- Witness for C3 at a thrown fetch. -/
theorem sendTurn_chat_failure_aiText_witness :
    groqCallFails GroqOutcome.fetchThrow = true ∧
    sendTurn true GroqOutcome.fetchThrow (fun _ => TtsOutcome.ok "https://a")
      = Except.ok ⟨"Error sending request to Groq API.", some "https://a"⟩ ∧
    (("Error sending request to Groq API." = "Sorry, I encountered an error.") ∨
     ("Error sending request to Groq API." = groqFailureText GroqOutcome.fetchThrow)) :=
  ⟨rfl, rfl,
   sendTurn_chat_failure_aiText GroqOutcome.fetchThrow (fun _ => TtsOutcome.ok "https://a")
     ⟨"Error sending request to Groq API.", some "https://a"⟩ rfl rfl⟩

/-- C4 counterexample: the chat call succeeds (2xx with content) with a
reply that starts with `"Error:"`; the reply is passed to synthesis
unsanitized — the sanitized form differs — so the claim's success case
fails as stated.  The TTS oracle here would only succeed on the sanitized
text, and the returned `audioUrl` is `none`, showing the sanitized text was
not what was submitted. -/
theorem sendTurn_sanitized_input_cex :
    getGroqResponse true (GroqOutcome.ok "Error: **bold**") = some "Error: **bold**" ∧
    sanitizeMarkdown "Error: **bold**" = "Error: bold" ∧
    plainTextForTts (getGroqResponse true (GroqOutcome.ok "Error: **bold**")) = "Error: **bold**" ∧
    ("Error: **bold**" : String) ≠ "Error: bold" ∧
    sendTurn true (GroqOutcome.ok "Error: **bold**")
        (fun u => if u = "Error: bold" then TtsOutcome.ok "https://a" else TtsOutcome.throws)
      = Except.ok ⟨"Error: **bold**", none⟩ :=
  ⟨rfl, rfl, rfl, by decide, rfl⟩

/-- C4 amended: the synthesis input is the sanitized reply exactly when the
reply is non-empty and does not start with `"Error:"` (then the original
reply is returned as `aiText`); otherwise the unsanitized reply-or-fallback
text is used as both the display text and the synthesis input. -/
theorem sendTurn_tts_input (keyOk : Bool) (g : GroqOutcome)
    (tts : String → TtsOutcome) (t : String)
    (hg : getGroqResponse keyOk g = some t) :
    (t ≠ "" ∧ strStartsWith t "Error:" = false →
      sendTurn keyOk g tts = Except.ok ⟨t, getFalTtsAudioUrl (tts (sanitizeMarkdown t))⟩) ∧
    ((t = "" ∨ strStartsWith t "Error:" = true) →
      sendTurn keyOk g tts = Except.ok ⟨plainTextForTts (some t),
        getFalTtsAudioUrl (tts (plainTextForTts (some t)))⟩) :=
  ⟨fun h => sendTurn_success_branch keyOk g tts t hg h.1 h.2,
   fun h => sendTurn_failure_branch keyOk g tts t hg h⟩

/-- Witness for the amended C4 on a successful markdown reply. -/
theorem sendTurn_tts_input_witness :
    getGroqResponse true (GroqOutcome.ok "**hi**") = some "**hi**" ∧
    sendTurn true (GroqOutcome.ok "**hi**")
        (fun u => if u = "hi" then TtsOutcome.ok "https://a" else TtsOutcome.throws)
      = Except.ok ⟨"**hi**", some "https://a"⟩ :=
  ⟨rfl,
   (sendTurn_tts_input true (GroqOutcome.ok "**hi**")
      (fun u => if u = "hi" then TtsOutcome.ok "https://a" else TtsOutcome.throws)
      "**hi**" rfl).1 ⟨by decide, rfl⟩⟩

/-- C6: when the speech-synthesis call fails (invalid response or thrown
error), `sendTurn` still completes normally (`Except.ok`, never an
exception) with `audioUrl = none`. -/
theorem sendTurn_tts_failure_null (keyOk : Bool) (g : GroqOutcome)
    (tts : String → TtsOutcome)
    (h : ttsFails (tts (plainTextForTts (getGroqResponse keyOk g))) = true) :
    ∃ a, sendTurn keyOk g tts = Except.ok ⟨a, none⟩ := by
  have hnull : getFalTtsAudioUrl (tts (plainTextForTts (getGroqResponse keyOk g))) = none := by
    cases ho : tts (plainTextForTts (getGroqResponse keyOk g)) with
    | ok u => rw [ho] at h; simp [ttsFails] at h
    | badResponse => simp [getFalTtsAudioUrl, falSubscribe]
    | throws => simp [getFalTtsAudioUrl, falSubscribe]
  obtain ⟨t, hg⟩ := getGroqResponse_isSome keyOk g
  by_cases hb : t = "" ∨ strStartsWith t "Error:" = true
  · refine ⟨plainTextForTts (some t), ?_⟩
    rw [sendTurn_failure_branch keyOk g tts t hg hb]
    rw [hg] at hnull
    rw [hnull]
  · push_neg at hb
    have h1 : strStartsWith t "Error:" = false := bool_eq_false hb.2
    refine ⟨t, ?_⟩
    rw [sendTurn_success_branch keyOk g tts t hg hb.1 h1]
    have hp : plainTextForTts (some t) = sanitizeMarkdown t := by
      simp only [plainTextForTts]
      rw [if_pos ⟨hb.1, h1⟩]
    rw [hg, hp] at hnull
    rw [hnull]

/-- Witness for C6 with a throwing TTS provider. -/
theorem sendTurn_tts_failure_null_witness :
    ttsFails ((fun _ => TtsOutcome.throws)
      (plainTextForTts (getGroqResponse true (GroqOutcome.ok "hi")))) = true ∧
    (∃ a, sendTurn true (GroqOutcome.ok "hi") (fun _ => TtsOutcome.throws)
      = Except.ok ⟨a, none⟩) :=
  ⟨rfl, sendTurn_tts_failure_null true (GroqOutcome.ok "hi") (fun _ => TtsOutcome.throws) rfl⟩

/-- C8: a missing chat or synthesis API key makes module evaluation throw
(startup aborts before any request is served), while after startup no
provider failure ever escapes `sendTurn` as an exception. -/
theorem missing_key_aborts_startup (e : Env)
    (h : keyPresent e.FAL_API_KEY = false ∨ keyPresent e.GROQ_API_KEY = false) :
    (∃ msg, moduleInit e = Except.error msg) ∧
    (∀ (keyOk : Bool) (g : GroqOutcome) (tts : String → TtsOutcome),
      ∃ r, sendTurn keyOk g tts = Except.ok r) := by
  constructor
  · by_cases hf : keyPresent e.FAL_API_KEY = false
    · exact ⟨"FAL_API_KEY environment variable is not set.", by simp [moduleInit, hf]⟩
    · have hf1 : keyPresent e.FAL_API_KEY = true := by
        cases hfe : keyPresent e.FAL_API_KEY
        · exact absurd hfe hf
        · rfl
      have hgk : keyPresent e.GROQ_API_KEY = false := by
        rcases h with h | h
        · exact absurd h hf
        · exact h
      exact ⟨"GROQ_API_KEY environment variable is not set.", by simp [moduleInit, hf1, hgk]⟩
  · intro keyOk g tts
    obtain ⟨t, hgr⟩ := getGroqResponse_isSome keyOk g
    by_cases hb : t = "" ∨ strStartsWith t "Error:" = true
    · exact ⟨_, sendTurn_failure_branch keyOk g tts t hgr hb⟩
    · push_neg at hb
      exact ⟨_, sendTurn_success_branch keyOk g tts t hgr hb.1 (bool_eq_false hb.2)⟩

/-- Witness for C8: an environment with the Fal key absent. -/
theorem missing_key_aborts_startup_witness :
    (keyPresent (Env.mk none (some "k")).FAL_API_KEY = false ∨
     keyPresent (Env.mk none (some "k")).GROQ_API_KEY = false) ∧
    ((∃ msg, moduleInit (Env.mk none (some "k")) = Except.error msg) ∧
     (∀ (keyOk : Bool) (g : GroqOutcome) (tts : String → TtsOutcome),
        ∃ r, sendTurn keyOk g tts = Except.ok r)) :=
  ⟨Or.inl rfl, missing_key_aborts_startup (Env.mk none (some "k")) (Or.inl rfl)⟩

/-- C9 counterexample: a 2xx response whose content is a single space is
truthy in JS, so `getGroqResponse` trims it and returns the empty string —
not a non-empty string — and the `"Sorry, I encountered an error."` default
in `sendTurn` is then reached. -/
theorem groq_empty_reply_cex :
    getGroqResponse true (GroqOutcome.ok " ") = some "" ∧
    sendTurn true (GroqOutcome.ok " ") (fun _ => TtsOutcome.throws)
      = Except.ok ⟨"Sorry, I encountered an error.", none⟩ :=
  ⟨rfl, rfl⟩

/-- C9 amended: `getGroqResponse` never returns null, and `sendTurn` always
returns a non-empty `aiText`; but the helper can return the empty string
(whitespace-only content), and exactly when it does, the fallback string is
the reply. -/
theorem groq_reply_never_null (keyOk : Bool) (g : GroqOutcome)
    (tts : String → TtsOutcome) :
    (∃ s, getGroqResponse keyOk g = some s) ∧
    (∀ r, sendTurn keyOk g tts = Except.ok r → r.aiText ≠ "") ∧
    (getGroqResponse keyOk g = some "" →
      ∃ u, sendTurn keyOk g tts = Except.ok ⟨"Sorry, I encountered an error.", u⟩) := by
  refine ⟨getGroqResponse_isSome keyOk g, ?_, ?_⟩
  · intro r hr
    obtain ⟨t, hg⟩ := getGroqResponse_isSome keyOk g
    by_cases hb : t = "" ∨ strStartsWith t "Error:" = true
    · rw [sendTurn_failure_branch keyOk g tts t hg hb] at hr
      injection hr with h2
      subst h2
      show plainTextForTts (some t) ≠ ""
      by_cases ht : t = ""
      · subst ht
        decide
      · have hs : ¬(t ≠ "" ∧ strStartsWith t "Error:" = false) := by
          rintro ⟨-, hfalse⟩
          rcases hb with hb | hb
          · exact ht hb
          · rw [hfalse] at hb
            cases hb
        simp only [plainTextForTts]
        rw [if_neg hs, if_neg ht]
        exact ht
    · push_neg at hb
      rw [sendTurn_success_branch keyOk g tts t hg hb.1 (bool_eq_false hb.2)] at hr
      injection hr with h2
      subst h2
      exact hb.1
  · intro hge
    exact ⟨getFalTtsAudioUrl (tts (plainTextForTts (some ""))),
      sendTurn_failure_branch keyOk g tts "" hge (Or.inl rfl)⟩

/-- Witness for the amended C9 at the whitespace-only reply. -/
theorem groq_reply_never_null_witness :
    (∃ s, getGroqResponse true (GroqOutcome.ok " ") = some s) ∧
    getGroqResponse true (GroqOutcome.ok " ") = some "" ∧
    (∃ u, sendTurn true (GroqOutcome.ok " ") (fun _ => TtsOutcome.ok "https://a")
      = Except.ok ⟨"Sorry, I encountered an error.", u⟩) :=
  ⟨(groq_reply_never_null true (GroqOutcome.ok " ") (fun _ => TtsOutcome.ok "https://a")).1,
   rfl,
   (groq_reply_never_null true (GroqOutcome.ok " ") (fun _ => TtsOutcome.ok "https://a")).2.2 rfl⟩

/-- C10 counterexample: the empty reply (from whitespace-only content) does
not start with `"Error:"`, yet it takes the failure branch of `sendTurn`:
the returned display text is the fallback, not the reply itself. -/
theorem empty_reply_failure_branch_cex :
    getGroqResponse true (GroqOutcome.ok " ") = some "" ∧
    strStartsWith "" "Error:" = false ∧
    sendTurn true (GroqOutcome.ok " ") (fun _ => TtsOutcome.badResponse)
      = Except.ok ⟨"Sorry, I encountered an error.", none⟩ ∧
    ("Sorry, I encountered an error." : String) ≠ "" :=
  ⟨rfl, rfl, rfl, by decide⟩

/-- C10 amended: replies that are empty or start with `"Error:"` take the
failure branch; every other reply — in particular each of the three
provider-failure strings — is treated as a successful reply: sanitized,
submitted to synthesis, and returned unmodified as `aiText`. -/
theorem failure_branch_characterization (st : String) (tts : String → TtsOutcome) :
    sendTurn true (GroqOutcome.httpError st) tts
      = Except.ok ⟨"Error communicating with Groq API: " ++ st,
          getFalTtsAudioUrl (tts (sanitizeMarkdown ("Error communicating with Groq API: " ++ st)))⟩ ∧
    sendTurn true GroqOutcome.fetchThrow tts
      = Except.ok ⟨"Error sending request to Groq API.",
          getFalTtsAudioUrl (tts (sanitizeMarkdown "Error sending request to Groq API."))⟩ ∧
    sendTurn true GroqOutcome.noContent tts
      = Except.ok ⟨"No response text found from Groq API.",
          getFalTtsAudioUrl (tts (sanitizeMarkdown "No response text found from Groq API."))⟩ ∧
    (∀ (keyOk : Bool) (g : GroqOutcome) (t : String),
      getGroqResponse keyOk g = some t →
      (t = "" ∨ strStartsWith t "Error:" = true) →
      sendTurn keyOk g tts = Except.ok ⟨plainTextForTts (some t),
        getFalTtsAudioUrl (tts (plainTextForTts (some t)))⟩) :=
  ⟨sendTurn_success_branch true (GroqOutcome.httpError st) tts _ rfl
     (errComm_ne_empty st) (strStartsWith_errComm st),
   sendTurn_success_branch true GroqOutcome.fetchThrow tts _ rfl (by decide) rfl,
   sendTurn_success_branch true GroqOutcome.noContent tts _ rfl (by decide) rfl,
   fun keyOk g t hg hb => sendTurn_failure_branch keyOk g tts t hg hb⟩

/-- Witness for the amended C10: a provider-failure string treated as a
success, and an `"Error:"`-prefixed reply taking the failure branch. -/
theorem failure_branch_characterization_witness :
    sendTurn true GroqOutcome.fetchThrow (fun _ => TtsOutcome.badResponse)
      = Except.ok ⟨"Error sending request to Groq API.", none⟩ ∧
    sendTurn false GroqOutcome.noContent (fun _ => TtsOutcome.badResponse)
      = Except.ok ⟨"Error: Groq API key not configured.", none⟩ :=
  ⟨(failure_branch_characterization "Bad Request" (fun _ => TtsOutcome.badResponse)).2.1,
   (failure_branch_characterization "Bad Request" (fun _ => TtsOutcome.badResponse)).2.2.2
     false GroqOutcome.noContent "Error: Groq API key not configured." rfl (Or.inr rfl)⟩

end ThinkBack
